import Mathlib

/-!
Verification development for the parse-it SQL query-builder core
(packages/database/src): the query IR, the parameter manager, the
expression renderer, the AST-mapper filter regrouping, the validation
pipeline and the query builder are embedded shallowly and the spec
claims are settled against them.

Conventions of the embedding:
* JavaScript runtime values occupying the dynamically typed `left` /
  `right` slots of an `ExpressionNode` are modelled by `EVal`; arrays
  are modelled by the custom list `EVals` (cons/nil) so that every
  recursive function is structural.
* Optional / possibly-`undefined` fields are `Option`; JS truthiness is
  modelled explicitly (`jsTruthy`, `opTruthy`).
* Fallible code (`throw`) returns `Except String`.
* Apostrophes occurring inside SQL text are written with the escape
  \x27 throughout.
-/

-- `ExpressionNode` and the JavaScript values filling its slots.
mutual
/-- A JavaScript value that can occur in the `left`/`right` slot of an
`ExpressionNode` (string, number, boolean, null, array, or a nested
expression object tagged `type: "expression"`). -/
inductive EVal where
  | str (s : String)
  | num (n : Int)
  | boolv (b : Bool)
  | nullv
  | arr (elems : EVals)
  | expr (e : Expr)
/-- A JavaScript array of `EVal`s. -/
inductive EVals where
  | nil
  | cons (v : EVal) (rest : EVals)
/-- `ExpressionNode` from types.ts: `{type:"expression", left, operator?, right?}`.
The `type` tag is implicit in the constructor. -/
inductive Expr where
  | mk (left : EVal) (operator : Option String) (right : Option EVal)
end

def Expr.left : Expr → EVal
  | .mk l _ _ => l

def Expr.operator : Expr → Option String
  | .mk _ o _ => o

def Expr.right : Expr → Option EVal
  | .mk _ _ r => r

/-- JS truthiness of a possibly-undefined value (`undefined`, `null`,
`0`, `""` and `false` are falsy; arrays and objects are truthy). -/
def jsTruthy : Option EVal → Bool
  | none => false
  | some (.str s) => s ≠ ""
  | some (.num n) => n ≠ 0
  | some (.boolv b) => b
  | some .nullv => false
  | some (.arr _) => true
  | some (.expr _) => true

/-- Truthiness of an optional string field (such as `operator` or `alias`). -/
def opTruthy : Option String → Bool
  | none => false
  | some s => s ≠ ""

/-- `typeof v === "object"` (true for null, arrays and objects). -/
def jsTypeofIsObject : EVal → Bool
  | .nullv => true
  | .arr _ => true
  | .expr _ => true
  | _ => false

def isArr : EVal → Bool
  | .arr _ => true
  | _ => false

def isNull : EVal → Bool
  | .nullv => true
  | _ => false

/-- Whether a value is an object carrying `type === "expression"`. -/
def isExprTag : EVal → Bool
  | .expr _ => true
  | _ => false

-- String conversion of a JS value as performed by a template literal
-- `${value}` (top level: null prints "null"; arrays join their
-- elements with "," where null elements print as "").
mutual
def jsToString : EVal → String
  | .str s => s
  | .num n => toString n
  | .boolv b => if b then "true" else "false"
  | .nullv => "null"
  | .arr es => jsJoin es
  | .expr _ => "[object Object]"
def jsJoin : EVals → String
  | .nil => ""
  | .cons v .nil => jsJoinElem v
  | .cons v rest => jsJoinElem v ++ "," ++ jsJoin rest
def jsJoinElem : EVal → String
  | .nullv => ""
  | .str s => s
  | .num n => toString n
  | .boolv b => if b then "true" else "false"
  | .arr es => jsJoin es
  | .expr _ => "[object Object]"
end

/-- JS whitespace for `String.prototype.trim`. -/
def isWsp (c : Char) : Bool :=
  c = ' ' || c = '\t' || c = '\n' || c = '\r'

/-- `.trim()` implemented on the character list (the core `String.trim`
does not reduce definitionally). -/
def jsTrim (s : String) : String :=
  String.mk (((s.data.dropWhile isWsp).reverse.dropWhile isWsp).reverse)

/-- `.toUpperCase()` implemented on the character list. -/
def jsToUpper (s : String) : String :=
  String.mk (s.data.map Char.toUpper)

/-- The characters following the first occurrence of the substring
"as", up to (excluding) the next occurrence — i.e. `parts[1]` of
`s.split("as")` — or `none` when "as" does not occur. -/
def takeUntilAs : List Char → List Char
  | 'a' :: 's' :: _ => []
  | c :: rest => c :: takeUntilAs rest
  | [] => []

def scanAs : List Char → Option (List Char)
  | 'a' :: 's' :: rest => some (takeUntilAs rest)
  | _ :: rest => scanAs rest
  | [] => none

def jsonEscape (s : String) : String :=
  String.mk (s.data.flatMap (fun c =>
    if c = '"' ∨ c = '\\' then ['\\', c] else [c]))

-- Minimal JSON.stringify (used by the expression builder for
-- non-array literal payloads).
mutual
def jsonStringify : EVal → String
  | .str s => "\"" ++ jsonEscape s ++ "\""
  | .num n => toString n
  | .boolv b => if b then "true" else "false"
  | .nullv => "null"
  | .arr es => "[" ++ jsonList es ++ "]"
  | .expr _ => "\x7b\x7d"
def jsonList : EVals → String
  | .nil => ""
  | .cons v .nil => jsonStringify v
  | .cons v rest => jsonStringify v ++ "," ++ jsonList rest
end

-- helper/where.ts `valueWrapper`, composed with the `+""` string
-- coercion applied at its use sites: arrays become `(v1,v2,…)`,
-- strings are wrapped in single quotes, other values print as
-- themselves (null elements inside an array join as "").
mutual
def valueWrapperStr : EVal → String
  | .arr es => "(" ++ valueWrapperList es ++ ")"
  | .str s => "\x27" ++ s ++ "\x27"
  | .num n => toString n
  | .boolv b => if b then "true" else "false"
  | .nullv => "null"
  | .expr _ => "[object Object]"
def valueWrapperList : EVals → String
  | .nil => ""
  | .cons v .nil => valueWrapperElem v
  | .cons v rest => valueWrapperElem v ++ "," ++ valueWrapperList rest
def valueWrapperElem : EVal → String
  | .nullv => ""
  | .str s => "\x27" ++ s ++ "\x27"
  | .num n => toString n
  | .boolv b => if b then "true" else "false"
  | .arr es => "(" ++ valueWrapperList es ++ ")"
  | .expr _ => "[object Object]"
end

/-- `QueryBuilderMode` from parameter.manager.ts. -/
inductive Mode where
  | SIMPLE
  | NAMED
  | POSITIONAL
  deriving DecidableEq, Repr

/-- `ParameterManager` state: the render mode, the named record
(insertion-ordered), the positional array and the running index. -/
structure PM where
  mode : Mode
  namedRec : List (String × EVal)
  posArr : List EVal
  paramIndex : Nat

/-- The `ParameterManager` constructor: empty collection, index 1. -/
def PM.init (m : Mode) : PM := ⟨m, [], [], 1⟩

/-- `ParameterManager.addParameter`: returns the placeholder text and
the updated manager (SIMPLE inlines the value, NAMED allocates
`@paramN`, POSITIONAL appends and returns `?`). -/
def PM.addParameter (pm : PM) (v : EVal) : String × PM :=
  match pm.mode with
  | .SIMPLE => (jsToString v, pm)
  | .NAMED =>
      let name := "param" ++ toString pm.paramIndex
      ("@" ++ name,
       { pm with namedRec := pm.namedRec ++ [(name, v)],
                 paramIndex := pm.paramIndex + 1 })
  | .POSITIONAL =>
      ("?", { pm with posArr := pm.posArr ++ [v],
                      paramIndex := pm.paramIndex + 1 })

/-- The parameters collection returned to the caller. -/
inductive Params where
  | namedP (entries : List (String × EVal))
  | posP (vs : List EVal)

/-- `ParameterManager.getParameters` (undefined in SIMPLE mode). -/
def PM.getParameters (pm : PM) : Option Params :=
  match pm.mode with
  | .SIMPLE => none
  | .NAMED => some (.namedP pm.namedRec)
  | .POSITIONAL => some (.posP pm.posArr)

/-- `ExpressionBuilder.isSimpleLiteral` (builder/expression-builder.ts):
left is a string or number and both `operator` and `right` are falsy. -/
def isSimpleLiteral (e : Expr) : Bool :=
  (match e.left with
   | .str _ => true
   | .num _ => true
   | _ => false)
  && !(opTruthy e.operator) && !(jsTruthy e.right)

/-- `ExpressionBuilder.needsParentheses`: both child slots are objects,
the right one is not an array, at least one is tagged `expression`, and
the operator is `OR`. -/
def needsParentheses (e : Expr) : Bool :=
  jsTypeofIsObject e.left
  && (match e.right with
      | some r => jsTypeofIsObject r && !(isArr r)
      | none => false)
  && (isExprTag e.left ||
      (match e.right with
       | some r => isExprTag r
       | none => false))
  && e.operator == some "OR"

/-- `ExpressionBuilder.buildExpressionValue`: arrays go through
`valueWrapper`, everything else through `JSON.stringify`. -/
def buildExpressionValue (e : Expr) : String :=
  match e.left with
  | .arr es => valueWrapperStr (.arr es)
  | v => jsonStringify v

-- `ExpressionBuilder.buildExpression` (builder/expression-builder.ts),
-- with `buildBinaryExpression` inlined.  A simple literal is
-- parameterized; a binary node renders left, operator, right in order
-- (threading the parameter manager left-to-right); a `null` left
-- renders `NULL`; any other node (all carry `type:"expression"`) goes
-- through `buildExpressionValue`.  `buildExpressionOn` models the JS
-- recursion on a `left`/`right` slot cast to `ExpressionNode`: a raw
-- (non-object) value falls through every branch and throws.
mutual
def buildExpression (pm : PM) (e : Expr) : Except String (String × PM) :=
  match e with
  | .mk l op r =>
    if isSimpleLiteral (.mk l op r) then
      .ok (pm.addParameter l)
    else if opTruthy op && jsTruthy r then
      match r with
      | some rv => do
          let (leftPart, pm1) ← buildExpressionOn pm l
          let (rightPart, pm2) ← buildExpressionOn pm1 rv
          let opStr := op.getD ""
          if needsParentheses (.mk l op r) then
            .ok ("(" ++ leftPart ++ " " ++ opStr ++ " " ++ rightPart ++ ")", pm2)
          else
            .ok (leftPart ++ " " ++ opStr ++ " " ++ rightPart, pm2)
      | none => .error "Unsupported expression"
    else if isNull l then
      .ok ("NULL", pm)
    else
      .ok (buildExpressionValue (.mk l op r), pm)
def buildExpressionOn (pm : PM) (v : EVal) : Except String (String × PM) :=
  match v with
  | .expr e => buildExpression pm e
  | _ => .error "Unsupported expression"
end

/-- Length of a custom EVal list. -/
def EVals.length : EVals → Nat
  | .nil => 0
  | .cons _ rest => 1 + rest.length

example :
    buildExpression (PM.init .SIMPLE)
      (.mk (.expr (.mk (.str "age") none none)) (some ">")
        (some (.expr (.mk (.num 18) none none)))) =
    .ok ("age > 18", PM.init .SIMPLE) := rfl

-- ---------------------------------------------------------------------
-- Query IR (types.ts).  Sequences whose elements recursively contain
-- `QueryNode` or `FilterNode` are modelled by custom cons/nil lists
-- inside the mutual family so that all recursion stays structural; an
-- extra `undef` constructor distinguishes an absent (undefined) field
-- from a present-but-empty array.
-- ---------------------------------------------------------------------

/-- A select-list entry: the builder accepts both raw strings and
`SelectNode`s (`{type:"select", expression, alias?}`). -/
inductive SelItem where
  | sstr (s : String)
  | node (expression : Expr) (aliasName : Option String)

/-- `GroupByNode` / the raw `groupBy` field, which may be a string, a
string array or a `{type:"groupby", columns}` node. -/
inductive GroupByVal where
  | gstr (s : String)
  | glist (cols : List String)
  | gnode (cols : List String)

/-- `OrderByNode`: `{type:"orderby", column, direction}`. -/
structure OrderByNode where
  column : String
  direction : String

mutual
/-- `FilterNode`: `{type:"filter", operator, conditions}` where each
condition is an `ExpressionNode` or (at runtime) a nested `FilterNode`. -/
inductive FilterNode where
  | mk (operator : String) (conditions : Conds)
/-- The conditions sequence of a `FilterNode`. -/
inductive Conds where
  | nil
  | cons (c : Cond) (rest : Conds)
/-- One condition: an expression or an explicitly grouped sub-filter. -/
inductive Cond where
  | cexpr (e : Expr)
  | cfilter (f : FilterNode)
end

def FilterNode.operator : FilterNode → String
  | .mk o _ => o

def FilterNode.conditions : FilterNode → Conds
  | .mk _ c => c

def Conds.length : Conds → Nat
  | .nil => 0
  | .cons _ rest => 1 + rest.length

def Conds.ofList : List Cond → Conds
  | [] => .nil
  | c :: rest => .cons c (Conds.ofList rest)

mutual
/-- `QueryNode` (types.ts): the root IR record.  `orderBy`, `limit`,
`offset`, `where`, `groupBy`, `having` are optional; `joins` and
`with` are optional sequences of recursive nodes. -/
inductive QueryNode where
  | mk (selects : List SelItem) (fromv : FromVal)
       (joins : Joins) (whereF : Option FilterNode)
       (groupByv : Option GroupByVal) (havingF : Option FilterNode)
       (orderByv : Option (List OrderByNode))
       (limit : Option Int) (offset : Option Int) (withv : Withs)
/-- The `from` field: a raw string, a `TableNode` or a `SubQueryNode`. -/
inductive FromVal where
  | fstr (s : String)
  | table (name : String) (aliasName : Option String)
  | sub (q : QueryNode) (aliasName : Option String)
/-- The `joins` field (undefined, or an ordered sequence of JoinNodes,
each `{type:"join", joinType, table, on}`). -/
inductive Joins where
  | absent
  | nil
  | cons (joinType : String) (target : JoinTarget) (onExpr : Expr) (rest : Joins)
/-- A join target: a `TableNode` or a `SubQueryNode`. -/
inductive JoinTarget where
  | table (name : String) (aliasName : Option String)
  | sub (q : QueryNode) (aliasName : Option String)
/-- The `with` field (undefined, or an ordered sequence of WithNodes,
each `{type:"with", name, query}`). -/
inductive Withs where
  | absent
  | nil
  | cons (name : String) (q : QueryNode) (rest : Withs)
end

def QueryNode.selects : QueryNode → List SelItem
  | .mk s _ _ _ _ _ _ _ _ _ => s

def QueryNode.fromv : QueryNode → FromVal
  | .mk _ f _ _ _ _ _ _ _ _ => f

def QueryNode.whereF : QueryNode → Option FilterNode
  | .mk _ _ _ w _ _ _ _ _ _ => w

def QueryNode.groupByv : QueryNode → Option GroupByVal
  | .mk _ _ _ _ g _ _ _ _ _ => g

def QueryNode.havingF : QueryNode → Option FilterNode
  | .mk _ _ _ _ _ h _ _ _ _ => h

def QueryNode.orderByv : QueryNode → Option (List OrderByNode)
  | .mk _ _ _ _ _ _ o _ _ _ => o

def QueryNode.limit : QueryNode → Option Int
  | .mk _ _ _ _ _ _ _ l _ _ => l

/-- Replace the `where` field of a query node. -/
def QueryNode.setWhere : QueryNode → Option FilterNode → QueryNode
  | .mk s f j _ g h o l off w, w2 => .mk s f j w2 g h o l off w

-- ---------------------------------------------------------------------
-- Caller-facing helper constructors (builder/helper).
-- ---------------------------------------------------------------------

/-- `select(s)[0]` for a raw string argument (helper/select.ts): wraps
the string into `{type:"select", expression:{type:"expression", left:s}}`. -/
def selectOne (s : String) : SelItem :=
  .node (.mk (.str s) none none) none

/-- The normalization `typeof s === "string" ? select(s)[0] : s` used by
the builder and the validators. -/
def normalizeSelect : SelItem → SelItem
  | .sstr s => selectOne s
  | x => x

def SelItem.expression : SelItem → Option Expr
  | .sstr _ => none
  | .node e _ => some e

def SelItem.aliasName : SelItem → Option String
  | .sstr _ => none
  | .node _ a => a

/-- `groupBy` helper (helper/index.ts): a string becomes a singleton
column list, an array is taken as-is, a node contributes its columns. -/
def groupByHelper : GroupByVal → List String
  | .gstr s => [s]
  | .glist cols => cols
  | .gnode cols => cols

/-- Loose JS equality of a value against the string `"()"`, as used by
`validConditions` (`condition.right.left != "()"`): a string compares
by value, an array coerces to its joined string, numbers/booleans/null
never equal `"()"`. -/
def jsLooseEqParens : EVal → Bool
  | .str t => t == "()"
  | .arr es => jsJoin es == "()"
  | _ => false

/-- helper/where.ts `validConditions`: drops every condition whose
`right` is an expression node whose `left` (loosely) equals `"()"` —
the rendered form of an empty `IN` value list. -/
def validConditions (cs : List Expr) : List Expr :=
  cs.filter (fun e =>
    match e.right with
    | some (.expr r) => !(jsLooseEqParens r.left)
    | _ => true)

/-- helper/where.ts `where`: builds a `FilterNode` over the surviving
conditions. -/
def whereHelper (cs : List Expr) (op : String) : FilterNode :=
  .mk op (Conds.ofList ((validConditions cs).map .cexpr))

-- ---------------------------------------------------------------------
-- WHERE / HAVING clause rendering (builder/query-builder.ts).
-- ---------------------------------------------------------------------

/-- Truthiness of the `parentOperator` guard in `buildWhereClause`
(`parentOperator && parentOperator !== condition.operator`). -/
def parensNeeded (parentOp : Option String) (opStr : String) : Bool :=
  match parentOp with
  | none => false
  | some p => p ≠ "" && p ≠ opStr

mutual
/-- `QueryBuilder.buildWhereClause`: returns `""` for an empty
conditions sequence, otherwise joins the rendered conditions with the
filter operator, prefixed `WHERE `. -/
def buildWhereClause (w : FilterNode) (pm : PM) : Except String (String × PM) :=
  match w with
  | .mk op conds =>
    match conds with
    | .nil => .ok ("", pm)
    | cs => do
        let (parts, pm1) ← buildCondListW cs op pm
        .ok ("WHERE " ++ String.intercalate (" " ++ op ++ " ") parts, pm1)
/-- The inner `buildCondition` of `buildWhereClause`: a nested filter is
joined with its own operator and parenthesized only when the parent
operator differs; an expression goes through the expression builder. -/
def buildConditionW (c : Cond) (parentOp : Option String) (pm : PM) :
    Except String (String × PM) :=
  match c with
  | .cfilter f =>
    match f with
    | .mk op conds => do
        let (parts, pm1) ← buildCondListW conds op pm
        let nested := String.intercalate (" " ++ op ++ " ") parts
        if parensNeeded parentOp op then
          .ok ("(" ++ nested ++ ")", pm1)
        else
          .ok (nested, pm1)
  | .cexpr e => buildExpression pm e
def buildCondListW (cs : Conds) (parentOp : String) (pm : PM) :
    Except String (List String × PM) :=
  match cs with
  | .nil => .ok ([], pm)
  | .cons c rest => do
      let (s, pm1) ← buildConditionW c (some parentOp) pm
      let (ss, pm2) ← buildCondListW rest parentOp pm1
      .ok (s :: ss, pm2)
end

mutual
/-- `QueryBuilder.buildHavingClause`: like the WHERE renderer, except a
nested filter is always parenthesized. -/
def buildHavingClause (h : FilterNode) (pm : PM) : Except String (String × PM) :=
  match h with
  | .mk op conds =>
    match conds with
    | .nil => .ok ("", pm)
    | cs => do
        let (parts, pm1) ← buildCondListH cs pm
        .ok ("HAVING " ++ String.intercalate (" " ++ op ++ " ") parts, pm1)
def buildConditionH (c : Cond) (pm : PM) : Except String (String × PM) :=
  match c with
  | .cfilter f =>
    match f with
    | .mk op conds => do
        let (parts, pm1) ← buildCondListH conds pm
        .ok ("(" ++ String.intercalate (" " ++ op ++ " ") parts ++ ")", pm1)
  | .cexpr e => buildExpression pm e
def buildCondListH (cs : Conds) (pm : PM) : Except String (List String × PM) :=
  match cs with
  | .nil => .ok ([], pm)
  | .cons c rest => do
      let (s, pm1) ← buildConditionH c pm
      let (ss, pm2) ← buildCondListH rest pm1
      .ok (s :: ss, pm2)
end

-- ---------------------------------------------------------------------
-- AST Mapper (parser/ast-mapper.ts): the raw parse-tree shape and the
-- filter regrouping algorithm.
-- ---------------------------------------------------------------------

/-- The raw parse-tree nodes relevant to filter mapping: a binary
expression carrying the external parser's `parentheses` flag, a column
reference, a number literal and a single-quoted string literal. -/
inductive Raw where
  | binary (operator : String) (left : Raw) (right : Raw) (parens : Bool)
  | col (name : String)
  | numLit (n : Int)
  | sqstr (s : String)

/-- `node.operator` of a raw node (undefined unless binary). -/
def Raw.rawOp : Raw → Option String
  | .binary op _ _ _ => some op
  | _ => none

/-- `node.parentheses` of a raw node (undefined-as-false unless binary). -/
def Raw.rawParens : Raw → Bool
  | .binary _ _ _ p => p
  | _ => false

/-- Whether a raw node is a `binary_expr` whose operator is a logical
`AND`/`OR`. -/
def Raw.isLogical : Raw → Bool
  | .binary op _ _ _ => op == "AND" || op == "OR"
  | _ => false

/-- `ASTMapper.mapExpression` on the node kinds above: a column ref
becomes a bare-identifier leaf, a binary expression maps both sides
recursively, a number keeps its value, a single-quoted string keeps its
quotes. -/
def mapExpression : Raw → Expr
  | .col name => .mk (.str name) none none
  | .binary op l r _ =>
      .mk (.expr (mapExpression l)) (some op) (some (.expr (mapExpression r)))
  | .numLit n => .mk (.num n) none none
  | .sqstr s => .mk (.str ("\x27" ++ s ++ "\x27")) none none

/-- `ASTMapper.processNode`, with `ASTMapper.buildConditions` inlined at
its four call sites (`buildConditions x` is `[processNode x]` for a
logical binary node and `[mapExpression x]` otherwise; the raw tree has
no null children).  A non-logical node becomes a singleton `AND`
filter; a parenthesized logical node groups `buildConditions` of both
sides; an unparenthesized logical node flattens a side through
`buildConditions` only when that side shares the operator and is not
itself parenthesized, otherwise keeps it as one `processNode` group. -/
def processNode : Raw → FilterNode
  | .binary op l r parens =>
      if op == "AND" || op == "OR" then
        if parens then
          .mk op (Conds.ofList
            ((if l.isLogical then [Cond.cfilter (processNode l)]
              else [Cond.cexpr (mapExpression l)]) ++
             (if r.isLogical then [Cond.cfilter (processNode r)]
              else [Cond.cexpr (mapExpression r)])))
        else
          .mk op (Conds.ofList
            ((if l.rawOp == some op && !l.rawParens then
                (if l.isLogical then [Cond.cfilter (processNode l)]
                 else [Cond.cexpr (mapExpression l)])
              else [Cond.cfilter (processNode l)]) ++
             (if r.rawOp == some op && !r.rawParens then
                (if r.isLogical then [Cond.cfilter (processNode r)]
                 else [Cond.cexpr (mapExpression r)])
              else [Cond.cfilter (processNode r)])))
      else
        .mk "AND" (Conds.ofList [Cond.cexpr (mapExpression (.binary op l r parens))])
  | other => .mk "AND" (Conds.ofList [Cond.cexpr (mapExpression other)])

/-- `ASTMapper.mapFilter`: the guard rejects null/shapeless input (not
representable in `Raw`), then delegates to `processNode`. -/
def mapFilter (f : Raw) : FilterNode := processNode f

-- Raw tree of `a > 18 AND b = 'x' OR (c < 18 AND d = 'y' OR (e = 18 AND f = 'z'))`:
-- the inner OR group and the innermost AND group carry the
-- `parentheses` flag, nothing else does.
def rawC2 : Raw :=
  .binary "OR"
    (.binary "AND"
      (.binary ">" (.col "a") (.numLit 18) false)
      (.binary "=" (.col "b") (.sqstr "x") false) false)
    (.binary "OR"
      (.binary "AND"
        (.binary "<" (.col "c") (.numLit 18) false)
        (.binary "=" (.col "d") (.sqstr "y") false) false)
      (.binary "AND"
        (.binary "=" (.col "e") (.numLit 18) false)
        (.binary "=" (.col "f") (.sqstr "z") false) true)
      true)
    false


-- Raw tree of `a > 1 AND b = 2 AND c < 3` parsed left-associatively
-- with no parentheses flag anywhere.
def rawC3 : Raw :=
  .binary "AND"
    (.binary "AND"
      (.binary ">" (.col "a") (.numLit 1) false)
      (.binary "=" (.col "b") (.numLit 2) false) false)
    (.binary "<" (.col "c") (.numLit 3) false)
    false


-- ---------------------------------------------------------------------
-- Validation pipeline (builder/validation): ValidationError, the three
-- rules, and the pipeline that concatenates their outputs.
-- ---------------------------------------------------------------------

/-- `ValidationError {message, location, suggestion}`. -/
structure ValidationError where
  message : String
  location : Option String
  suggestion : Option String
  deriving DecidableEq, Repr

/-- A schema: table name to column names mapping (builder/mode.ts). -/
def Schema := List (String × List String)

/-- `traverseExpression` (builder/util.ts), modelled as the ordered list
of `(operand, operator)` pairs passed to the callback: a string left is
reported with the node operator, an object left is recursed into (null
and arrays contribute nothing), and a truthy right is recursed into
when it is a non-array object and reported directly otherwise. -/
def traverseCalls : Expr → List (EVal × Option String)
  | .mk l op r =>
    (match l with
     | .str s => [(EVal.str s, op)]
     | .expr le => traverseCalls le
     | _ => []) ++
    (match r with
     | none => []
     | some rv =>
       if jsTruthy (some rv) && jsTypeofIsObject rv && !(isArr rv) then
         match rv with
         | .expr re => traverseCalls re
         | _ => []
       else if jsTruthy (some rv) then [(rv, op)]
       else [])

/-- The operator whitelist of the Lexical Analyzer. -/
def validOperators : List String :=
  ["=", "!=", "<", "<=", ">", ">=", "<>", "IS", "IS NOT", "IN", "NOT IN",
   "BETWEEN", "NOT BETWEEN", "LIKE", "NOT LIKE", "AND", "OR", "NOT",
   "+", "-", "*", "/", "UNION ALL", "UNION DISTINCT", "EXCEPT DISTINCT",
   "EXCEPT ALL", "INTERSECT DISTINCT", "INTERSECT ALL", "||", "~", "&",
   "|", "^"]

/-- The reserved-keyword list of the Lexical Analyzer. -/
def reservedKeywords : List String :=
  ["ALL", "AND", "ANY", "ARRAY", "AS", "ASC", "ASSERT_ROWS_MODIFIED",
   "AT", "BETWEEN", "BY", "CASE", "CAST", "COLLATE", "CONTAINS",
   "CREATE", "CROSS", "CUBE", "CURRENT", "DEFAULT", "DEFINE", "DESC",
   "DISTINCT", "ELSE", "END", "ENUM", "ESCAPE", "EXCEPT", "EXCLUDE",
   "EXISTS", "EXTRACT", "FALSE", "FETCH", "FOLLOWING", "FOR", "FROM",
   "FULL", "GROUP", "GROUPING", "GROUPS", "HASH", "HAVING", "IF",
   "IGNORE", "IN", "INNER", "INTERSECT", "INTERVAL", "INTO", "IS",
   "JOIN", "LATERAL", "LEFT", "LIKE", "LIMIT", "LOOKUP", "MERGE",
   "NATURAL", "NEW", "NO", "NOT", "NULL", "NULLS", "OF", "ON", "OR",
   "ORDER", "OUTER", "OVER", "PARTITION", "PRECEDING", "PROTO",
   "QUALIFY", "RANGE", "RECURSIVE", "RESPECT", "RIGHT", "ROLLUP",
   "ROWS", "SELECT", "SET", "SOME", "STRUCT", "TABLESAMPLE", "THEN",
   "TO", "TREAT", "TRUE", "UNBOUNDED", "UNION", "UNNEST", "USING",
   "WHEN", "WHERE", "WINDOW", "WITH", "WITHIN", "*"]

/-- `validateReservedKeywords` (lexical-analyzer.ts): every string
operand reachable from a select expression that equals a reserved
keyword case-insensitively yields an error; raw-string select entries
have no `expression` and are skipped by the null guard. -/
def validateReservedKeywords (q : QueryNode) : List ValidationError :=
  q.selects.flatMap (fun s =>
    match s.expression with
    | none => []
    | some e =>
      (traverseCalls e).filterMap (fun (p : EVal × Option String) =>
        match p.1 with
        | .str c =>
          if reservedKeywords.contains (jsToUpper c) then
            some ⟨"Column name \x27" ++ c ++ "\x27 is a reserved SQL keyword.",
                  some "SELECT", some "Rename the column to avoid conflicts."⟩
          else none
        | _ => none))

/-- `validateOperators` (lexical-analyzer.ts): every callback carrying a
truthy operator outside the whitelist, over the top-level `where`
conditions (a runtime `FilterNode` condition has no `left`/`right` and
contributes nothing). -/
def validateOperators (q : QueryNode) : List ValidationError :=
  (match q.whereF with
   | none => []
   | some f => condList f.conditions).flatMap (fun c =>
    match c with
    | .cfilter _ => []
    | .cexpr e =>
      (traverseCalls e).filterMap (fun (p : EVal × Option String) =>
        match p.2 with
        | some op =>
          if op ≠ "" && !(validOperators.contains op) then
            some ⟨"Invalid operator in condition: \x27" ++ op ++ "\x27.",
                  some "WHERE",
                  some ("Use one of the valid operators: " ++
                        String.intercalate ", " validOperators ++ ".")⟩
          else none
        | none => none))
where
  condList : Conds → List Cond
    | .nil => []
    | .cons c rest => c :: condList rest

/-- `LexicalAnalyzer.validate`: reserved keywords then operators. -/
def lexicalValidate (q : QueryNode) : List ValidationError :=
  validateReservedKeywords q ++ validateOperators q

/-- `selectKeyFromExpression` of the Syntax Analyzer: a string left is
split on the substring "as" (alias part when present), anything else is
the raw left value. -/
def selectKeyFromExpression : EVal → EVal
  | .str s =>
      match scanAs s.data with
      | none => .str (jsTrim s)
      | some seg => .str (jsTrim (String.mk seg))
  | v => v

/-- `validateGroupByMatchSelect` (syntax-analyzer.ts): every GROUP BY
column must appear among the select keys (alias if truthy, else the
select-expression key). -/
def validateGroupByMatchSelect (q : QueryNode) : List ValidationError :=
  let selectColumns : List EVal := q.selects.map (fun s0 =>
    let s := normalizeSelect s0
    match s.aliasName with
    | some a =>
      if a ≠ "" then .str a
      else selectKeyFromExpression ((s.expression.map Expr.left).getD .nullv)
    | none => selectKeyFromExpression ((s.expression.map Expr.left).getD .nullv))
  let groupByColumns := (q.groupByv.map groupByHelper).getD []
  groupByColumns.filterMap (fun column =>
    if selectColumns.any (fun v =>
        match v with
        | .str s => s == column
        | _ => false) then
      none
    else
      some ⟨"Column \x27" ++ column ++ "\x27 in GROUP BY must be selected.",
            some "GROUP BY", some "Add the column to the SELECT clause."⟩)

/-- `validateHavingRequiresGroupBy` (syntax-analyzer.ts /
validation/syntax-analyzer.ts): fires when `having` is present and no
`orderBy` entry has a column literally named "groupBy" — the `groupBy`
field itself is never consulted. -/
def validateHavingRequiresGroupBy (q : QueryNode) : List ValidationError :=
  if q.havingF.isSome &&
     !(match q.orderByv with
       | some obs => obs.any (fun o => o.column == "groupBy")
       | none => false) then
    [⟨"HAVING clause requires a GROUP BY clause.", some "HAVING",
      some "Add a GROUP BY clause to your query."⟩]
  else []

/-- `validateLimitWithOrderBy` (syntax-analyzer.ts): a truthy `limit`
with an undefined `orderBy` (an empty array is truthy and passes). -/
def validateLimitWithOrderBy (q : QueryNode) : List ValidationError :=
  if (match q.limit with
      | some n => n ≠ 0
      | none => false) && q.orderByv.isNone then
    [⟨"LIMIT requires an ORDER BY clause for deterministic results.",
      some "LIMIT", some "Add an ORDER BY clause to your query."⟩]
  else []

/-- `SyntaxAnalyzer.validate`: the three syntax rules concatenated. -/
def saValidate (q : QueryNode) : List ValidationError :=
  validateGroupByMatchSelect q ++ validateHavingRequiresGroupBy q ++
  validateLimitWithOrderBy q

/-- The `from` helper (helper/index.ts): a raw string becomes a
`TableNode`. -/
def fromHelper : FromVal → FromVal
  | .fstr s => .table s none
  | x => x

/-- `checkIsFromTable` (builder/util.ts): `Object.hasOwn(value, "name")`. -/
def checkIsFromTable : FromVal → Bool
  | .table _ _ => true
  | .fstr _ => true
  | .sub _ _ => false

/-- `validateColumnExistenceInSchema` (validation/schema-validator.ts):
when the primary source is a table, each select whose expression left
is a string not among the table's columns yields an error (the
subquery branch recurses into a discarded error list and contributes
nothing). -/
def validateColumnExistenceInSchema (q : QueryNode) (cols : List String) :
    List ValidationError :=
  match fromHelper q.fromv with
  | .table name _ =>
    q.selects.filterMap (fun s0 =>
      let s := normalizeSelect s0
      match s.expression with
      | some e =>
        match e.left with
        | .str c =>
          if cols.contains c then none
          else some ⟨"Column \x27" ++ c ++ "\x27 does not exist in table \x27" ++
                      name ++ "\x27.",
                     some "SELECT",
                     some "Check the column name or the table schema."⟩
        | _ => none
      | none => none)
  | _ => []

/-- `validateExpressionNode` of `validateColumnExistenceInWhere`: a
string left not among the columns errors (only when the source is a
table); an expression-object left recurses; a non-array expression
right recurses. -/
def validateExpressionNode (tableName : String) (cols : List String) :
    Expr → List ValidationError
  | .mk l _ r =>
    (match l with
     | .str c =>
       if cols.contains c then []
       else [⟨"Column \x27" ++ c ++ "\x27 does not exist in table \x27" ++
              tableName ++ "\x27.",
              some "WHERE",
              some "Check the column name or the table schema."⟩]
     | .expr le => validateExpressionNode tableName cols le
     | _ => []) ++
    (match r with
     | some (.expr re) => validateExpressionNode tableName cols re
     | _ => [])

mutual
/-- `validateCondition` of `validateColumnExistenceInWhere`: filters
recurse into their conditions, expressions go through
`validateExpressionNode`. -/
def validateCondition (tableName : String) (cols : List String) (c : Cond) :
    List ValidationError :=
  match c with
  | .cfilter f =>
    match f with
    | .mk _ conds => validateCondConds tableName cols conds
  | .cexpr e => validateExpressionNode tableName cols e
def validateCondConds (tableName : String) (cols : List String) (cs : Conds) :
    List ValidationError :=
  match cs with
  | .nil => []
  | .cons c rest =>
      validateCondition tableName cols c ++ validateCondConds tableName cols rest
end

/-- `validateColumnExistenceInWhere` (validation/schema-validator.ts):
walks the top-level where conditions when the primary source is a
table (the subquery branch recurses into a discarded error list). -/
def validateColumnExistenceInWhere (q : QueryNode) (cols : List String) :
    List ValidationError :=
  match q.whereF with
  | none => []
  | some f =>
    match fromHelper q.fromv with
    | .table name _ =>
      match f with
      | .mk _ conds => validateCondConds name cols conds
    | _ => []

/-- `SchemaValidator.validate`: no schema or a subquery source yields no
errors; an unknown primary table is one error; otherwise the select and
where column checks are concatenated. -/
def schemaValidate (q : QueryNode) (schema : Option Schema) :
    List ValidationError :=
  match schema with
  | none => []
  | some sch =>
    match fromHelper q.fromv with
    | .table name _ =>
      match sch.lookup name with
      | none =>
        [⟨"Table \x27" ++ name ++ "\x27 does not exist in the schema.",
          some "FROM", some "Ensure the table exists in the database."⟩]
      | some cols =>
        validateColumnExistenceInSchema q cols ++
        validateColumnExistenceInWhere q cols
    | _ => []

/-- The rules handed to `ValidationPipeline` by the `QueryBuilder`
constructor, in order: Lexical Analyzer, Syntax Analyzer, Schema
Validator. -/
def validationRules : List (QueryNode → Option Schema → List ValidationError) :=
  [fun q _ => lexicalValidate q,
   fun q _ => saValidate q,
   fun q s => schemaValidate q s]

/-- `ValidationPipeline.validate`: flat-maps every rule over the query
(no short-circuiting). -/
def pipelineValidate (q : QueryNode) (schema : Option Schema) :
    List ValidationError :=
  (validationRules.map (fun r => r q schema)).flatten

/-- The aggregate message thrown by `QueryBuilder.validate`. -/
def aggregateMessage (errs : List ValidationError) : String :=
  "Query validation failed:\n" ++
  String.intercalate "\n"
    (errs.map (fun e =>
      "- " ++ e.message ++ " (Location: " ++ (e.location.getD "undefined") ++ ")"))

-- ---------------------------------------------------------------------
-- QueryBuilder (builder/query-builder.ts).
-- ---------------------------------------------------------------------

/-- `QueryBuildResult`: the SQL text plus the optional parameters
collection. -/
structure BuildResult where
  query : String
  parameters : Option Params

/-- The ` AS alias` suffix (empty for an absent or empty alias). -/
def aliasStr : Option String → String
  | some a => if a ≠ "" then " AS " ++ a else ""
  | none => ""

/-- `QueryBuilder.mapJoinType`: the canonical join keywords with a
generic `JOIN` fallback. -/
def mapJoinType (jt : String) : String :=
  if jt == "INNER" then "INNER JOIN"
  else if jt == "LEFT" then "LEFT JOIN"
  else if jt == "RIGHT" then "RIGHT JOIN"
  else if jt == "FULL" then "FULL JOIN"
  else if jt == "CROSS" then "CROSS JOIN"
  else "JOIN"

/-- `QueryBuilder.buildSelectClause` item loop: normalizes raw strings
through the `select` helper and renders `expr` or `expr AS alias`,
threading the parameter manager left to right. -/
def buildSelectList (pm : PM) : List SelItem → Except String (List String × PM)
  | [] => .ok ([], pm)
  | s0 :: rest => do
      let s := normalizeSelect s0
      match s.expression with
      | some e => do
          let (t, pm1) ← buildExpression pm e
          let entry :=
            match s.aliasName with
            | some a => if a ≠ "" then t ++ " AS " ++ a else t
            | none => t
          let (ts, pm2) ← buildSelectList pm1 rest
          .ok (entry :: ts, pm2)
      | none => .error "Unsupported expression"

/-- `QueryBuilder.buildGroupByClause` (normalizes through the `groupBy`
helper). -/
def buildGroupByClause (g : GroupByVal) : String :=
  "GROUP BY " ++ String.intercalate ", " (groupByHelper g)

/-- `QueryBuilder.buildOrderByClause`. -/
def buildOrderByClause (l : List OrderByNode) : String :=
  "ORDER BY " ++ String.intercalate ", "
    (l.map (fun o => o.column ++ " " ++ o.direction))

/-- Modelled from the spec: `applyMaybeClause` (builder/util.ts) is
imported and called by query-builder.ts but its definition is not in
the source tree.  Per §4.3 "a clause is omitted entirely, contributing
nothing, when its IR field is absent/empty", so an absent value
contributes the empty string and a present value runs its builder;
empty sequences are normalized to `none` before this is applied. -/
def applyMaybeClause {α : Type} (value : Option α) (builder : α → String) : String :=
  match value with
  | none => ""
  | some v => builder v

/-- Empty-sequence normalization feeding `applyMaybeClause` (an
ASTMapper output always carries `orderBy: []`, which must render
nothing). -/
def nonEmptyOrder : Option (List OrderByNode) → Option (List OrderByNode)
  | some [] => none
  | x => x

/-- Empty-sequence normalization for the groupBy field. -/
def nonEmptyGroup : Option GroupByVal → Option GroupByVal
  | some g => if groupByHelper g = [] then none else some g
  | none => none

mutual
/-- The render phase of `QueryBuilder.build` (`buildQuery` /
`getQueryParts` inlined): renders the clauses in the fixed order WITH,
SELECT, FROM, joins, WHERE, GROUP BY, HAVING, ORDER BY, LIMIT, OFFSET,
dropping empty clause strings and joining with single spaces.  One
fresh `ParameterManager` is created per `build` invocation and
threaded through the select/join/where/having renderers of THIS
invocation only: the nested `this.build(...)` calls issued for CTE
bodies and subquery FROM/join targets — inlined here as their
validation gate followed by `renderQ` — construct their own manager
and their parameter collections are discarded (only `.query` is
kept). -/
def renderQ (mode : Mode) : QueryNode → Except String BuildResult
  | .mk selects fromv joins whereF groupByv havingF orderByv limit offset withv => do
      let pm0 := PM.init mode
      let withEntries ← buildWithEntries mode withv
      let withPart :=
        if withEntries.isEmpty then ""
        else "WITH " ++ String.intercalate ", " withEntries
      let (selParts, pm1) ← buildSelectList pm0 selects
      let selPart := "SELECT " ++ String.intercalate ", " selParts
      let fromPart ←
        (match fromv with
         | .fstr s => Except.ok ("FROM " ++ s)
         | .table n a => Except.ok ("FROM " ++ n ++ aliasStr a)
         | .sub q a => do
             let r ← (if (pipelineValidate q none).length > 0 then
                        Except.error (aggregateMessage (pipelineValidate q none))
                      else renderQ mode q)
             Except.ok ("FROM (" ++ r.query ++ ")" ++ aliasStr a))
      let (joinEntries, pm2) ← buildJoinEntries mode joins pm1
      let joinPart := String.intercalate " " joinEntries
      let (wherePart, pm3) ←
        (match whereF with
         | none => Except.ok ("", pm2)
         | some f => buildWhereClause f pm2)
      let groupPart := applyMaybeClause (nonEmptyGroup groupByv) buildGroupByClause
      let (havingPart, pm4) ←
        (match havingF with
         | none => Except.ok ("", pm3)
         | some f => buildHavingClause f pm3)
      let orderPart := applyMaybeClause (nonEmptyOrder orderByv) buildOrderByClause
      let limitPart := applyMaybeClause limit (fun n => "LIMIT " ++ toString n)
      let offsetPart := applyMaybeClause offset (fun n => "OFFSET " ++ toString n)
      let parts := [withPart, selPart, fromPart, joinPart, wherePart,
                    groupPart, havingPart, orderPart, limitPart, offsetPart]
      let text := jsTrim (String.intercalate " " (parts.filter (fun s => s ≠ "")))
      .ok ⟨text, pm4.getParameters⟩
/-- `QueryBuilder.buildWithClause` entries: each CTE body is rendered by
a recursive `this.build(node.query)` (validation gate + render, no
schema) whose parameters are discarded. -/
def buildWithEntries (mode : Mode) : Withs → Except String (List String)
  | .absent => .ok []
  | .nil => .ok []
  | .cons name wq rest => do
      let r ← (if (pipelineValidate wq none).length > 0 then
                 Except.error (aggregateMessage (pipelineValidate wq none))
               else renderQ mode wq)
      let es ← buildWithEntries mode rest
      .ok ((name ++ " AS (" ++ r.query ++ ")") :: es)
/-- `QueryBuilder.buildJoinClause` entries (with `buildJoinTable`
inlined): subquery targets recurse through `this.build` (parameters
discarded), ON expressions use the outer manager. -/
def buildJoinEntries (mode : Mode) : Joins → PM → Except String (List String × PM)
  | .absent, pm => .ok ([], pm)
  | .nil, pm => .ok ([], pm)
  | .cons jt target onE rest, pm => do
      let tablePart ←
        (match target with
         | .table n a => Except.ok (n ++ aliasStr a)
         | .sub q a => do
             let r ← (if (pipelineValidate q none).length > 0 then
                        Except.error (aggregateMessage (pipelineValidate q none))
                      else renderQ mode q)
             Except.ok ("(" ++ r.query ++ ")" ++ aliasStr a))
      let (onPart, pm1) ← buildExpression pm onE
      let (es, pm2) ← buildJoinEntries mode rest pm1
      .ok ((mapJoinType jt ++ " " ++ tablePart ++ " ON " ++ onPart) :: es, pm2)
end

/-- `QueryBuilder.build`: `validate` throws the aggregate message when
any pipeline rule reports an error (no SQL is produced), otherwise the
query is rendered. -/
def buildQB (mode : Mode) (q : QueryNode) (schema : Option Schema) :
    Except String BuildResult :=
  if (pipelineValidate q schema).length > 0 then
    .error (aggregateMessage (pipelineValidate q schema))
  else renderQ mode q

-- ---------------------------------------------------------------------
-- Concrete claim inputs.
-- ---------------------------------------------------------------------

/-- `{selects:["name","email"], from:"users"}`. -/
def q4input : QueryNode :=
  .mk [.sstr "name", .sstr "email"] (.fstr "users") .absent
      none none none none none none .absent

/-- `age > 18` as an IR comparison. -/
def cond18 : Expr :=
  .mk (.expr (.mk (.str "age") none none)) (some ">")
      (some (.expr (.mk (.num 18) none none)))

/-- `name LIKE 'John%'` as an IR comparison (the string literal carries
its quotes, as produced by the mapper and the `conditions` helper). -/
def condLike : Expr :=
  .mk (.expr (.mk (.str "name") none none)) (some "LIKE")
      (some (.expr (.mk (.str "\x27John%\x27") none none)))

/-- `age > 18 AND name LIKE 'John%'` as one nested expression, the
shape the `conditions` helper produces. -/
def nestedC8 : Expr := .mk (.expr cond18) (some "AND") (some (.expr condLike))

/-- A query containing the literals `18` and `'John%'`. -/
def q8input : QueryNode :=
  .mk [.sstr "name", .sstr "email"] (.fstr "users") .absent
      (some (whereHelper [nestedC8] "AND")) none none none none none .absent

/-- CTE body `SELECT a FROM t WHERE x = 5`. -/
def q1inner : QueryNode :=
  .mk [.sstr "a"] (.fstr "t") .absent
      (some (.mk "AND" (Conds.ofList
        [.cexpr (.mk (.expr (.mk (.str "x") none none)) (some "=")
                  (some (.expr (.mk (.num 5) none none))))])))
      none none none none none .absent

/-- `WITH c AS (SELECT a FROM t WHERE x = 5) SELECT b FROM u WHERE y = 7`. -/
def q1outer : QueryNode :=
  .mk [.sstr "b"] (.fstr "u") .absent
      (some (.mk "AND" (Conds.ofList
        [.cexpr (.mk (.expr (.mk (.str "y") none none)) (some "=")
                  (some (.expr (.mk (.num 7) none none))))])))
      none none none none none (.cons "c" q1inner .nil)

/-- `id IN ()` hand-built in the IR: the right-hand side is an
expression node over an empty array. -/
def condInEmpty : Expr :=
  .mk (.expr (.mk (.str "id") none none)) (some "IN")
      (some (.expr (.mk (.arr .nil) none none)))

/-- A query whose where filter holds the hand-built empty `IN`. -/
def q7hand : QueryNode :=
  .mk [.sstr "name"] (.fstr "users") .absent
      (some (.mk "AND" (Conds.ofList [.cexpr condInEmpty])))
      none none none none none .absent

/-- `id IN ()` as the `conditions` helper produces it: `valueWrapper`
renders the empty value list to the string `"()"` before the node is
built. -/
def condInEmptyStr : Expr :=
  .mk (.expr (.mk (.str "id") none none)) (some "IN")
      (some (.expr (.mk (.str "()") none none)))

/-- A query whose where filter is built through the `where` helper from
a real condition and an empty `IN`. -/
def q7help : QueryNode :=
  .mk [.sstr "name"] (.fstr "users") .absent
      (some (whereHelper [cond18, condInEmptyStr] "AND"))
      none none none none none .absent

/-- `COUNT(*) > 5` as an IR comparison. -/
def condCount : Expr :=
  .mk (.expr (.mk (.str "COUNT(*)") none none)) (some ">")
      (some (.expr (.mk (.num 5) none none)))

/-- A query with BOTH a `having` filter and a `groupBy` clause. -/
def qC5both : QueryNode :=
  .mk [.sstr "name"] (.fstr "users") .absent none (some (.gstr "name"))
      (some (.mk "AND" (Conds.ofList [.cexpr condCount])))
      none none none .absent

/-- A query with a `having` filter, NO `groupBy`, and an `orderBy`
entry whose column is literally named "groupBy". -/
def qC5trick : QueryNode :=
  .mk [.sstr "name"] (.fstr "users") .absent none none
      (some (.mk "AND" (Conds.ofList [.cexpr condCount])))
      (some [⟨"groupBy", "ASC"⟩]) none none .absent

/-- A query violating three different rules at once: `having` without
`groupBy`, `limit` without `orderBy`, and a select column missing from
the schema. -/
def qC6 : QueryNode :=
  .mk [.sstr "email"] (.fstr "users") .absent none none
      (some (.mk "AND" (Conds.ofList [.cexpr condCount])))
      none (some 10) none .absent

def schC6 : Schema := [("users", ["id", "name"])]

/-- A chain of `n` nested subquery FROM targets over a base query. -/
def nestQ : Nat → QueryNode
  | 0 => .mk [.sstr "name"] (.fstr "users") .absent none none none none none none .absent
  | n + 1 => .mk [.sstr "name"] (.sub (nestQ n) none) .absent none none none none none none .absent

/-- A query whose `where` field is a `FilterNode` with an empty
conditions sequence (the documented invariant violated). -/
def q10input : QueryNode :=
  .mk [.sstr "name"] (.fstr "users") .absent (some (.mk "AND" .nil)) none none
      (some [⟨"name", "DESC"⟩]) (some 10) (some 5) .absent

/-- Whether a condition has the empty-IN shape `right.left = "()"`
(loosely) that `validConditions` is meant to drop. -/
def hasEmptyParenRight (e : Expr) : Bool :=
  match e.right with
  | some (.expr r) => jsLooseEqParens r.left
  | _ => false

/-- Bool-valued any over a conditions sequence. -/
def Conds.anyB (p : Cond → Bool) : Conds → Bool
  | .nil => false
  | .cons c rest => p c || Conds.anyB p rest

-- ---------------------------------------------------------------------
-- Claim theorems.
-- ---------------------------------------------------------------------

/-- C1: in NAMED mode, `build` does NOT share one Parameter Manager
across recursive render calls: each CTE body is rendered by a nested
`build` with a fresh manager whose collection is discarded, so the
returned text reuses `@param1`..`@param3` inside and outside the CTE
(colliding indices) and the CTE's values (`"a"`, `"x"`, `5`) are
missing from the returned parameters. -/
theorem C1_nested_build_restarts_parameters :
    buildQB .NAMED q1outer none =
    .ok ⟨"WITH c AS (SELECT @param1 FROM t WHERE @param2 = @param3) " ++
         "SELECT @param1 FROM u WHERE @param2 = @param3",
         some (.namedP [("param1", .str "b"), ("param2", .str "y"),
                        ("param3", .num 7)])⟩ := rfl

/-- C2: mapping the raw tree of
`a > 18 AND b = 'x' OR (c < 18 AND d = 'y' OR (e = 18 AND f = 'z'))`
(with the parentheses flag on the two explicitly grouped nodes) through
the AST Mapper's filter regrouping and rendering the resulting
`FilterNode` with the Query Builder's WHERE renderer yields exactly
`(a > 18 AND b = 'x') OR (c < 18 AND d = 'y') OR (e = 18 AND f = 'z')`:
each source parenthesis survives exactly once. -/
theorem C2_explicit_grouping_roundtrip :
    buildWhereClause (mapFilter rawC2) (PM.init .SIMPLE) =
    .ok ("WHERE (a > 18 AND b = \x27x\x27) OR (c < 18 AND d = \x27y\x27)" ++
         " OR (e = 18 AND f = \x27z\x27)", PM.init .SIMPLE) := rfl

/-- C3: mapping the unparenthesized chain `a > 1 AND b = 2 AND c < 3`
(parsed as `AND(AND(a,b),c)`) does NOT flatten to one conditions
sequence of length 3: the result has length 2, its first element being
a nested binary pair of singleton filters — contradicting the claim
and the mapper's own doc comment ("logical expressions without
parentheses are flattened into the parent FilterNode"). -/
theorem C3_chain_is_not_flattened :
    mapFilter rawC3 =
      .mk "AND" (Conds.ofList
        [.cfilter (.mk "AND" (Conds.ofList
          [.cfilter (.mk "AND" (Conds.ofList
            [.cexpr (.mk (.expr (.mk (.str "a") none none)) (some ">")
                      (some (.expr (.mk (.num 1) none none))))])),
           .cfilter (.mk "AND" (Conds.ofList
            [.cexpr (.mk (.expr (.mk (.str "b") none none)) (some "=")
                      (some (.expr (.mk (.num 2) none none))))]))])),
         .cfilter (.mk "AND" (Conds.ofList
          [.cexpr (.mk (.expr (.mk (.str "c") none none)) (some "<")
                    (some (.expr (.mk (.num 3) none none))))]))]) ∧
    (mapFilter rawC3).conditions.length = 2 := ⟨rfl, rfl⟩

/-- C4: a bare-identifier select leaf is NOT emitted verbatim in every
mode: under NAMED mode `isSimpleLiteral` routes the identifier strings
"name" and "email" into the Parameter Manager, producing placeholders
and parameter entries; only SIMPLE mode yields the claimed text. -/
theorem C4_identifiers_parameterized_in_named_mode :
    buildQB .NAMED q4input none =
      .ok ⟨"SELECT @param1, @param2 FROM users",
           some (.namedP [("param1", .str "name"), ("param2", .str "email")])⟩ ∧
    buildQB .SIMPLE q4input none =
      .ok ⟨"SELECT name, email FROM users", none⟩ := ⟨rfl, rfl⟩

/-- C5: `validateHavingRequiresGroupBy` never consults `groupBy`: it
fires whenever `having` is present and no `orderBy` column is literally
named "groupBy".  A query with both `having` and `groupBy` still gets
the error (and `build` aborts on it), while a query with `having`, no
`groupBy`, and an orderBy column named "groupBy" gets none. -/
theorem C5_having_rule_checks_orderBy_not_groupBy :
    validateHavingRequiresGroupBy qC5both =
      [⟨"HAVING clause requires a GROUP BY clause.", some "HAVING",
        some "Add a GROUP BY clause to your query."⟩] ∧
    validateHavingRequiresGroupBy qC5trick = [] ∧
    buildQB .SIMPLE qC5both none =
      .error ("Query validation failed:\n- HAVING clause requires a " ++
              "GROUP BY clause. (Location: HAVING)") := ⟨rfl, rfl, rfl⟩

/-- C7 counterexample: a QueryNode hand-built with an `IN` condition
over an empty value list renders `IN ()` in the WHERE clause — the
renderer performs no elision, contradicting the claim as stated. -/
theorem C7_hand_built_empty_in_renders :
    buildQB .SIMPLE q7hand none =
      .ok ⟨"SELECT name FROM users WHERE id IN ()", none⟩ := rfl

/-- C8: NAMED mode does not yield `{param1:18, param2:'John%'}`: the
identifier leaves are parameterized too (selects first, then each
comparison side), so the literals land at `@param4`/`@param6` and the
collection holds six entries; POSITIONAL likewise yields six values,
not `[18,'John%']`.  Only the SIMPLE-mode part of the claim holds. -/
theorem C8_mode_invariants_fail_under_named_and_positional :
    buildQB .NAMED q8input none =
      .ok ⟨"SELECT @param1, @param2 FROM users WHERE @param3 > @param4 " ++
           "AND @param5 LIKE @param6",
           some (.namedP [("param1", .str "name"), ("param2", .str "email"),
                          ("param3", .str "age"), ("param4", .num 18),
                          ("param5", .str "name"),
                          ("param6", .str "\x27John%\x27")])⟩ ∧
    buildQB .POSITIONAL q8input none =
      .ok ⟨"SELECT ?, ? FROM users WHERE ? > ? AND ? LIKE ?",
           some (.posP [.str "name", .str "email", .str "age", .num 18,
                        .str "name", .str "\x27John%\x27"])⟩ ∧
    buildQB .SIMPLE q8input none =
      .ok ⟨"SELECT name, email FROM users WHERE age > 18 AND name LIKE " ++
           "\x27John%\x27", none⟩ := ⟨rfl, rfl, rfl⟩

/-- C9 counterexample: an input nested 30 subqueries deep builds
successfully — no depth limit is consulted and no `DepthExceededError`
exists anywhere in the code, contradicting the claim that such inputs
fail with a `DepthExceededError`. -/
theorem C9_deep_nesting_builds_successfully :
    (buildQB .SIMPLE (nestQ 30) none).isOk = true := rfl

/-- C6: the validation pipeline returns the concatenation of all three
rules' error lists (no short-circuiting), and whenever that list is
non-empty `build` fails with the aggregate error, returning no SQL
text at all. -/
theorem C6_pipeline_concatenates_and_build_aborts
    (m : Mode) (q : QueryNode) (s : Option Schema) :
    pipelineValidate q s =
      lexicalValidate q ++ saValidate q ++ schemaValidate q s ∧
    (pipelineValidate q s ≠ [] →
      buildQB m q s = .error (aggregateMessage (pipelineValidate q s))) := by
  constructor
  · simp [pipelineValidate, validationRules]
  · intro hne
    rw [buildQB, if_pos (List.length_pos.mpr hne)]

/-- C6 witness: a query violating the having rule, the limit rule and
the schema rule at once — the pipeline reports all three (two rules
contributing, so it did not stop at the first failure) and build
aborts with the aggregate. -/
theorem C6_pipeline_witness :
    pipelineValidate qC6 (some schC6) ≠ [] ∧
    (pipelineValidate qC6 (some schC6) =
      lexicalValidate qC6 ++ saValidate qC6 ++ schemaValidate qC6 (some schC6) ∧
     (pipelineValidate qC6 (some schC6) ≠ [] →
       buildQB .NAMED qC6 (some schC6) =
         .error (aggregateMessage (pipelineValidate qC6 (some schC6))))) :=
  ⟨by decide, C6_pipeline_concatenates_and_build_aborts .NAMED qC6 (some schC6)⟩

/-- C7 amended: the elision of empty-`IN` conditions happens at
FilterNode construction, not in the renderer: the `where` helper's
`validConditions` drops every condition whose right-hand side is the
rendered empty list `"()"`, so helper-built filters contain no such
condition and the built text shows no trace of it; only hand-built
nodes bypassing the helper render `IN ()`. -/
theorem C7_where_helper_elides_empty_in :
    (∀ (cs : List Expr) (op : String),
      (whereHelper cs op).conditions.anyB
        (fun c => match c with
          | .cexpr e => hasEmptyParenRight e
          | .cfilter _ => false) = false) ∧
    buildQB .SIMPLE q7help none =
      .ok ⟨"SELECT name FROM users WHERE age > 18", none⟩ := by
  constructor
  · intro cs op
    induction cs with
    | nil => rfl
    | cons e rest ih =>
      simp only [whereHelper, validConditions, FilterNode.conditions,
                 List.filter] at ih ⊢
      cases he : (match e.right with
                  | some (.expr r) => !(jsLooseEqParens r.left)
                  | _ => true) with
      | true =>
        simp only [List.map, Conds.ofList, Conds.anyB, ih, Bool.or_false]
        have : hasEmptyParenRight e = false := by
          unfold hasEmptyParenRight
          cases hr : e.right with
          | none => rfl
          | some rv =>
            cases rv with
            | expr r =>
              rw [hr] at he
              simpa using he
            | str s => rfl
            | num n => rfl
            | boolv b => rfl
            | nullv => rfl
            | arr es => rfl
        simp [this]
      | false => simpa using ih
  · rfl

/-- C9 amended: no recursion-depth bound exists anywhere — `build`
recurses to arbitrary input depth, succeeding on every member of an
unboundedly deep family of nested-subquery queries (and no
`DepthExceededError` is defined in the code). -/
theorem C9_no_depth_bound (n : Nat) :
    (buildQB .SIMPLE (nestQ n) none).isOk = true := by
  have pipeNest : ∀ j, pipelineValidate (nestQ j) none = [] := by
    intro j
    cases j with
    | zero => rfl
    | succ i => rfl
  induction n with
  | zero => rfl
  | succ k ih =>
    rw [buildQB, pipeNest (k + 1), if_neg (by decide)]
    obtain ⟨r, hr⟩ : ∃ r, renderQ .SIMPLE (nestQ k) = .ok r := by
      rw [buildQB, pipeNest k, if_neg (by decide)] at ih
      cases h : renderQ .SIMPLE (nestQ k) with
      | ok r => exact ⟨r, rfl⟩
      | error e =>
          rw [h] at ih
          exact absurd ih (by simp [Except.isOk, Except.toBool])
    show (renderQ .SIMPLE (nestQ (k + 1))).isOk = true
    rw [nestQ]
    simp only [renderQ, pipeNest k, bind, Except.bind, hr]
    rfl

/-- C10: a `where` field holding a `FilterNode` with an empty
conditions sequence raises no error: the WHERE renderer returns the
empty string, the clause is dropped, and the whole build result is the
same as if `where` were absent. -/
theorem C10_empty_filter_is_dropped
    (m : Mode) (q : QueryNode) (s : Option Schema) (op : String)
    (hw : q.whereF = some (.mk op .nil)) :
    buildWhereClause (.mk op .nil) (PM.init m) = .ok ("", PM.init m) ∧
    buildQB m q s = buildQB m (q.setWhere none) s := by
  refine ⟨rfl, ?_⟩
  cases q with
  | mk sel fr j w g hv o l off wi =>
    simp only [QueryNode.whereF] at hw
    subst hw
    cases s <;> cases fr <;> rfl

/-- C10 witness: the equality applied at a concrete query (empty-`AND`
filter, with ORDER BY / LIMIT / OFFSET present), hypothesis discharged
by `rfl`. -/
theorem C10_empty_filter_witness :
    buildWhereClause (.mk "AND" .nil) (PM.init .SIMPLE) =
      .ok ("", PM.init .SIMPLE) ∧
    buildQB .SIMPLE q10input none =
      buildQB .SIMPLE (q10input.setWhere none) none :=
  C10_empty_filter_is_dropped .SIMPLE q10input none "AND" rfl
